import Mathlib

/-!
Verification development for the `uberpy` client (`src/uberpy/uber.py`).

The repository contains a single source file, `uber.py`, defining the class
`Uber(Api)`: a thin client that, for each API operation, assembles a
dictionary of query parameters and hands it to the base class helper
`get_json` (which performs the HTTP call) or `build_request` (which renders
a URL). The base class `Api` (file `api.py`) is not part of the repository
sources, so its two helpers are modelled from the specification, as marked
in their doc comments; all parameter-assembly logic below is translated
directly from `uber.py`.

Python dictionaries preserve insertion order and the dictionaries built in
`uber.py` never repeat a key, so `QueryParameters` is embedded as an
association list in insertion order. Parameter values are strings or
numbers (spec, data model), embedded as the inductive `Value`.
-/

namespace Uberpy

/-- A query-parameter value: the spec's data model allows `string | number`. -/
inductive Value where
  | str : String → Value
  | num : Int → Value
deriving DecidableEq, Repr

/-- Query parameters: mapping from name to value, built fresh per call.
Embedded as an association list in insertion order. -/
abbrev QueryParameters := List (String × Value)

/-- The request descriptor handed to the transport: endpoint, HTTP method,
query parameters and whether the call sets the authorisation flag
(`authorisation=True` in the source; absent defaults to no flag). -/
structure Request where
  endpoint : String
  method : String
  params : QueryParameters
  auth : Bool
deriving DecidableEq, Repr

/-- Observable effects of a client call. The only effect in this client is
an outbound HTTP call carrying a request descriptor. -/
inductive Effect where
  | httpCall : Request → Effect
deriving DecidableEq, Repr

/-- The `Uber` client state: the four configuration fields stored by
`Uber.__init__` (`uber.py` lines 22-25). Construction (`Uber.mk`) sets all
four once, mirroring `__init__`. -/
structure Uber where
  client_id : String
  server_token : String
  secret : String
  redirect_uri : String
deriving DecidableEq, Repr

/-- Outcome of a client method: its returned value, the HTTP calls it
issued, and the post-state of the client object (Python methods run against
`self`; the embedding passes the state explicitly). -/
structure Out (α : Type) where
  res : α
  effects : List Effect
  post : Uber
deriving Repr

/-- Modelled from the spec: `Api.get_json` lives in the base class `api.py`,
which is absent from `src/`. Per the spec (system overview / transport
contract), it builds the request descriptor from endpoint, method, query
parameters and auth flag, performs exactly one HTTP call through the
transport, and returns the decoded result. We record the issued request as
an effect and return the descriptor as the (otherwise opaque) result. The
two `None, None` placeholder arguments that every source call passes carry
no information and are omitted. -/
def Uber.get_json (self : Uber) (endpoint : String) (method : String)
    (query_parameters : QueryParameters) (auth : Bool) : Out Request :=
  let r : Request := ⟨endpoint, method, query_parameters, auth⟩
  ⟨r, [Effect.httpCall r], self⟩

/-- Rendering of a parameter value into a URL query string. -/
def render_value : Value → String
  | Value.str s => s
  | Value.num n => toString n

/-- Rendering of query parameters as `k1=v1&k2=v2&...`. -/
def render_query : QueryParameters → String
  | [] => ""
  | [p] => p.1 ++ "=" ++ render_value p.2
  | p :: ps => p.1 ++ "=" ++ render_value p.2 ++ "&" ++ render_query ps

/-- Modelled from the spec: the base URL prefix prepended by the missing
`Api.build_request`; the spec writes it only as `{base}/`, so a fixed
placeholder constant is used — no claim depends on its value. -/
def api_base : String := "https://api.uber.com/"

/-- Modelled from the spec: `Api.build_request` lives in the base class
`api.py`, absent from `src/`. Per the spec it renders a fully formed URL
`{base}{path}?{query}` from the path and query parameters, and is a pure
function with no I/O, so it issues no HTTP effect. The `authorisation` flag
passed by the source call selects a header on real requests and does not
appear in the rendered URL. -/
def Uber.build_request (self : Uber) (path : String)
    (query_parameters : QueryParameters) (auth : Bool) : Out String :=
  ⟨api_base ++ path ++ "?" ++ render_query query_parameters, [], self⟩

/-- `Uber.get_products` (`uber.py` lines 29-42): GET `products` with
`{latitude, longitude}`; no authorisation argument is passed. -/
def Uber.get_products (self : Uber) (latitude longitude : Value) :
    Out Request :=
  self.get_json "products" "GET"
    [("latitude", latitude), ("longitude", longitude)] false

/-- `Uber.get_price_estimate` (`uber.py` lines 44-61): GET `estimates/price`
with the four coordinates. -/
def Uber.get_price_estimate (self : Uber)
    (start_latitude start_longitude end_latitude end_longitude : Value) :
    Out Request :=
  self.get_json "estimates/price" "GET"
    [("start_latitude", start_latitude),
     ("start_longitude", start_longitude),
     ("end_latitude", end_latitude),
     ("end_longitude", end_longitude)] false

/-- `Uber.get_time_estimate` (`uber.py` lines 63-87): GET `estimates/time`.
The source extends the base dictionary through an `if`/`elif`/`elif` chain;
the third branch (adding both `customer_uuid` and `product_id`) is mirrored
exactly as written, including its placement after the first two. -/
def Uber.get_time_estimate (self : Uber)
    (start_latitude start_longitude : Value)
    (customer_uuid : Option Value) (product_id : Option Value) :
    Out Request :=
  let base : QueryParameters :=
    [("start_latitude", start_latitude),
     ("start_longitude", start_longitude)]
  let query_parameters :=
    if customer_uuid.isSome then
      base ++ [("customer_uuid", customer_uuid.getD (Value.str ""))]
    else if product_id.isSome then
      base ++ [("product_id", product_id.getD (Value.str ""))]
    else if customer_uuid.isSome && product_id.isSome then
      base ++ [("customer_uuid", customer_uuid.getD (Value.str "")),
               ("product_id", product_id.getD (Value.str ""))]
    else
      base
  self.get_json "estimates/time" "GET" query_parameters false

/-- `Uber.get_promotions` (`uber.py` lines 89-107): GET `promotions` with
the four coordinates. -/
def Uber.get_promotions (self : Uber)
    (start_latitude start_longitude end_latitude end_longitude : Value) :
    Out Request :=
  self.get_json "promotions" "GET"
    [("start_latitude", start_latitude),
     ("start_longitude", start_longitude),
     ("end_latitude", end_latitude),
     ("end_longitude", end_longitude)] false

/-- The `query_parameters` dictionary built by `Uber.get_authorize_url`
(`uber.py` lines 124-128): `client_id`, `response_type`, and the
comma-joined scopes. The `state` argument of the method never enters this
dictionary. -/
def Uber.authorize_query_parameters (self : Uber) (scopes : List String)
    (response_type : String) : QueryParameters :=
  [("client_id", Value.str self.client_id),
   ("response_type", Value.str response_type),
   ("scopes", Value.str (String.intercalate "," scopes))]

/-- `Uber.get_authorize_url` (`uber.py` lines 109-130): builds the OAuth
redirect URL via `Api.build_request` with `authorisation=True`. Python
defaults are `scopes=[]`, `state=None`, `response_type='code'`; callers of
the embedding supply them explicitly. -/
def Uber.get_authorize_url (self : Uber) (scopes : List String)
    (state : Option String) (response_type : String) : Out String :=
  self.build_request "authorize"
    (self.authorize_query_parameters scopes response_type) true

/-- `Uber.get_access_token` (`uber.py` lines 132-153): POST `token` with
client credentials, `grant_type='authorization_code'`, redirect URI and the
code; `authorisation=True`. -/
def Uber.get_access_token (self : Uber) (code : String) : Out Request :=
  self.get_json "token" "POST"
    [("client_id", Value.str self.client_id),
     ("client_secret", Value.str self.secret),
     ("grant_type", Value.str "authorization_code"),
     ("redirect_uri", Value.str self.redirect_uri),
     ("code", Value.str code)] true

/-- `Uber.refresh_token` (`uber.py` lines 155-174): POST `token` with
client credentials, `grant_type='authorization_code'` (the same constant as
`get_access_token`), redirect URI and the refresh token;
`authorisation=True`. -/
def Uber.refresh_token (self : Uber) (refresh_token : String) : Out Request :=
  self.get_json "token" "POST"
    [("client_id", Value.str self.client_id),
     ("client_secret", Value.str self.secret),
     ("grant_type", Value.str "authorization_code"),
     ("redirect_uri", Value.str self.redirect_uri),
     ("refresh_token", Value.str refresh_token)] true

/-- `Uber.revoke_token` (`uber.py` lines 176-185): POST `revoke` with
client credentials and the token; `authorisation=True`. -/
def Uber.revoke_token (self : Uber) (token : String) : Out Request :=
  self.get_json "revoke" "POST"
    [("client_id", Value.str self.client_id),
     ("client_secret", Value.str self.secret),
     ("token", Value.str token)] true

/-- Whether the query parameters contain a given key. -/
def hasKey (ps : QueryParameters) (k : String) : Bool :=
  ps.any (fun p => p.1 == k)

/-- A concrete client configuration used for evaluations. -/
def uDemo : Uber :=
  ⟨"demo-client-id", "demo-server-token", "demo-secret",
   "https://example.org/callback"⟩

/-- The authorize URL exactly as the spec's external-interface section
describes it, `{base}/authorize?client_id={id}&response_type={type}&scopes=
{comma-joined}[&state={state}]`, including the optional state component:
written from the spec's words, to be compared against the URL the source
actually builds. -/
def spec_authorize_url (self : Uber) (scopes : List String)
    (state : Option String) (response_type : String) : String :=
  api_base ++ "authorize" ++ "?" ++ "client_id" ++ "=" ++ self.client_id
    ++ "&" ++ "response_type" ++ "=" ++ response_type
    ++ "&" ++ "scopes" ++ "=" ++ String.intercalate "," scopes
    ++ (match state with
        | some s => "&" ++ "state" ++ "=" ++ s
        | none => "")

/-- C2: in `get_time_estimate`, whenever both `customer_uuid` and
`product_id` are non-None the first branch of the `if`/`elif` chain fires,
so the query parameters are exactly the base coordinates plus
`customer_uuid` — the third branch never contributes and `product_id` is
silently dropped. -/
theorem C2_both_supplied_first_branch_drops_product_id (u : Uber)
    (la lo c p : Value) :
    (u.get_time_estimate la lo (some c) (some p)).res.params =
      [("start_latitude", la), ("start_longitude", lo),
       ("customer_uuid", c)] ∧
    hasKey (u.get_time_estimate la lo (some c) (some p)).res.params
      "product_id" = false :=
  ⟨rfl, rfl⟩

/-- C1: evaluation of `get_time_estimate` at the three claimed cases. With
only `customer_uuid` supplied the parameters include `customer_uuid` and
not `product_id`; with only `product_id` supplied they include `product_id`
and not `customer_uuid`; but with both supplied the parameters include
`customer_uuid` and NOT `product_id` — the code drops `product_id`, against
the claim's third part. -/
theorem C1_time_estimate_eval :
    (hasKey (uDemo.get_time_estimate (Value.num 1) (Value.num 2)
        (some (Value.str "cust-1")) none).res.params "customer_uuid" = true ∧
     hasKey (uDemo.get_time_estimate (Value.num 1) (Value.num 2)
        (some (Value.str "cust-1")) none).res.params "product_id" = false) ∧
    (hasKey (uDemo.get_time_estimate (Value.num 1) (Value.num 2)
        none (some (Value.str "prod-9"))).res.params "product_id" = true ∧
     hasKey (uDemo.get_time_estimate (Value.num 1) (Value.num 2)
        none (some (Value.str "prod-9"))).res.params "customer_uuid" = false) ∧
    (hasKey (uDemo.get_time_estimate (Value.num 1) (Value.num 2)
        (some (Value.str "cust-1")) (some (Value.str "prod-9"))).res.params
        "customer_uuid" = true ∧
     hasKey (uDemo.get_time_estimate (Value.num 1) (Value.num 2)
        (some (Value.str "cust-1")) (some (Value.str "prod-9"))).res.params
        "product_id" = false) := by
  decide

/-- C3: `refresh_token` issues exactly one POST to `token` with the
authorisation flag set, whose parameters are exactly client_id,
client_secret, grant_type, redirect_uri and refresh_token, where grant_type
is the constant `authorization_code` — the very value `get_access_token`
sends for every code. -/
theorem C3_refresh_token_request (u : Uber) (rt code : String) :
    u.refresh_token rt =
      ⟨⟨"token", "POST",
        [("client_id", Value.str u.client_id),
         ("client_secret", Value.str u.secret),
         ("grant_type", Value.str "authorization_code"),
         ("redirect_uri", Value.str u.redirect_uri),
         ("refresh_token", Value.str rt)], true⟩,
       [Effect.httpCall
         ⟨"token", "POST",
          [("client_id", Value.str u.client_id),
           ("client_secret", Value.str u.secret),
           ("grant_type", Value.str "authorization_code"),
           ("redirect_uri", Value.str u.redirect_uri),
           ("refresh_token", Value.str rt)], true⟩], u⟩ ∧
    List.lookup "grant_type" (u.refresh_token rt).res.params =
      some (Value.str "authorization_code") ∧
    List.lookup "grant_type" (u.refresh_token rt).res.params =
      List.lookup "grant_type" (u.get_access_token code).res.params :=
  ⟨rfl, rfl, rfl⟩

/-- C4: `get_access_token code` issues exactly one POST to `token` with the
authorisation flag set and parameters exactly client_id, client_secret,
grant_type=authorization_code, redirect_uri (from the stored configuration)
and the code. -/
theorem C4_access_token_request (u : Uber) (code : String) :
    u.get_access_token code =
      ⟨⟨"token", "POST",
        [("client_id", Value.str u.client_id),
         ("client_secret", Value.str u.secret),
         ("grant_type", Value.str "authorization_code"),
         ("redirect_uri", Value.str u.redirect_uri),
         ("code", Value.str code)], true⟩,
       [Effect.httpCall
         ⟨"token", "POST",
          [("client_id", Value.str u.client_id),
           ("client_secret", Value.str u.secret),
           ("grant_type", Value.str "authorization_code"),
           ("redirect_uri", Value.str u.redirect_uri),
           ("code", Value.str code)], true⟩], u⟩ :=
  rfl

/-- C5 counterexample: with state supplied (`some "xyz"`), the URL built by
the source is not the spec's claimed form with the `&state=xyz` component —
the state parameter is missing from the actual URL. -/
theorem C5_counterexample_state_dropped :
    (uDemo.get_authorize_url ["profile", "history"] (some "xyz") "code").res ≠
      spec_authorize_url uDemo ["profile", "history"] (some "xyz") "code" := by
  decide

/-- C5 amended: for every configuration, scopes, state and response_type,
the URL built by `get_authorize_url` is exactly
`{base}/authorize?client_id={id}&response_type={type}&scopes={comma-joined}`
with no state component, whether or not state is supplied. -/
theorem C5_amended_authorize_url_no_state (u : Uber) (scopes : List String)
    (state : Option String) (response_type : String) :
    (u.get_authorize_url scopes state response_type).res =
      spec_authorize_url u scopes none response_type := by
  simp only [Uber.get_authorize_url, Uber.build_request,
        Uber.authorize_query_parameters, spec_authorize_url,
        render_query, render_value, String.append_assoc,
        String.append_empty]

/-- C6: `get_products` issues exactly one GET to `products` whose
parameters are exactly latitude and longitude, with no authorisation
flag, and leaves the client unchanged. -/
theorem C6_products_request (u : Uber) (la lo : Value) :
    u.get_products la lo =
      ⟨⟨"products", "GET", [("latitude", la), ("longitude", lo)], false⟩,
       [Effect.httpCall
         ⟨"products", "GET", [("latitude", la), ("longitude", lo)], false⟩],
       u⟩ :=
  rfl

/-- C7: the four configuration fields are set once at construction and no
operation mutates them: every operation's post-state is its input state,
and two clients with equal configuration fields produce equal results on
equal arguments — each call is a pure function of (configuration,
arguments). -/
theorem C7_config_immutable_and_pure (u v : Uber)
    (h1 : u.client_id = v.client_id) (h2 : u.server_token = v.server_token)
    (h3 : u.secret = v.secret) (h4 : u.redirect_uri = v.redirect_uri) :
    (∀ la lo, (u.get_products la lo).post = u ∧
      u.get_products la lo = v.get_products la lo) ∧
    (∀ a b c d, (u.get_price_estimate a b c d).post = u ∧
      u.get_price_estimate a b c d = v.get_price_estimate a b c d) ∧
    (∀ a b c p, (u.get_time_estimate a b c p).post = u ∧
      u.get_time_estimate a b c p = v.get_time_estimate a b c p) ∧
    (∀ a b c d, (u.get_promotions a b c d).post = u ∧
      u.get_promotions a b c d = v.get_promotions a b c d) ∧
    (∀ sc st rt, (u.get_authorize_url sc st rt).post = u ∧
      u.get_authorize_url sc st rt = v.get_authorize_url sc st rt) ∧
    (∀ c, (u.get_access_token c).post = u ∧
      u.get_access_token c = v.get_access_token c) ∧
    (∀ r, (u.refresh_token r).post = u ∧
      u.refresh_token r = v.refresh_token r) ∧
    (∀ t, (u.revoke_token t).post = u ∧
      u.revoke_token t = v.revoke_token t) := by
  have huv : u = v := by
    cases u; cases v; simp_all
  subst huv
  exact ⟨fun _ _ => ⟨rfl, rfl⟩, fun _ _ _ _ => ⟨rfl, rfl⟩,
    fun _ _ _ _ => ⟨rfl, rfl⟩, fun _ _ _ _ => ⟨rfl, rfl⟩,
    fun _ _ _ => ⟨rfl, rfl⟩, fun _ => ⟨rfl, rfl⟩,
    fun _ => ⟨rfl, rfl⟩, fun _ => ⟨rfl, rfl⟩⟩

/-- C7 witness: the immutability and purity statement instantiated at the
concrete demo configuration. -/
theorem C7_witness :
    (∀ la lo, (uDemo.get_products la lo).post = uDemo ∧
      uDemo.get_products la lo = uDemo.get_products la lo) ∧
    (∀ a b c d, (uDemo.get_price_estimate a b c d).post = uDemo ∧
      uDemo.get_price_estimate a b c d = uDemo.get_price_estimate a b c d) ∧
    (∀ a b c p, (uDemo.get_time_estimate a b c p).post = uDemo ∧
      uDemo.get_time_estimate a b c p = uDemo.get_time_estimate a b c p) ∧
    (∀ a b c d, (uDemo.get_promotions a b c d).post = uDemo ∧
      uDemo.get_promotions a b c d = uDemo.get_promotions a b c d) ∧
    (∀ sc st rt, (uDemo.get_authorize_url sc st rt).post = uDemo ∧
      uDemo.get_authorize_url sc st rt = uDemo.get_authorize_url sc st rt) ∧
    (∀ c, (uDemo.get_access_token c).post = uDemo ∧
      uDemo.get_access_token c = uDemo.get_access_token c) ∧
    (∀ r, (uDemo.refresh_token r).post = uDemo ∧
      uDemo.refresh_token r = uDemo.refresh_token r) ∧
    (∀ t, (uDemo.revoke_token t).post = uDemo ∧
      uDemo.revoke_token t = uDemo.revoke_token t) :=
  C7_config_immutable_and_pure uDemo uDemo rfl rfl rfl rfl

/-- C8: `get_authorize_url` issues no HTTP call — its effect list is empty
for every input — while the `get_json` path used by every other operation
always issues exactly one. -/
theorem C8_authorize_url_no_http (u : Uber) (scopes : List String)
    (state : Option String) (response_type : String) :
    (u.get_authorize_url scopes state response_type).effects = [] ∧
    ∀ e m qp a, (u.get_json e m qp a).effects =
      [Effect.httpCall ⟨e, m, qp, a⟩] :=
  ⟨rfl, fun _ _ _ _ => rfl⟩

/-- C9: with scopes left at the default empty list and response_type at the
default `code`, the query parameters handed to the request builder still
contain the key `scopes` bound to the empty string (the comma-join of no
scopes), alongside client_id and response_type=code. -/
theorem C9_empty_scopes_parameter (u : Uber) :
    u.authorize_query_parameters [] "code" =
      [("client_id", Value.str u.client_id),
       ("response_type", Value.str "code"),
       ("scopes", Value.str "")] ∧
    List.lookup "scopes" (u.authorize_query_parameters [] "code") =
      some (Value.str "") :=
  ⟨rfl, rfl⟩

/-- C10: the URL built by `get_authorize_url` is independent of the state
argument — any two state values (including None) with identical scopes,
response_type and configuration yield the same result. -/
theorem C10_state_noninterference (u : Uber) (scopes : List String)
    (s1 s2 : Option String) (response_type : String) :
    u.get_authorize_url scopes s1 response_type =
      u.get_authorize_url scopes s2 response_type :=
  rfl

end Uberpy
